import Mathlib

/-!
Verification of the BOM radar compositing and animation-assembly pipeline.

The development shallowly embeds the image-processing core of
`bom_animated_radar_scraper.py` and `bom_radar_scraper.py`:

* an `Img` is an in-memory RGBA raster (width, height, and a pixel map);
* `paste`, `alphaComposite`, `crop_img` model the PIL primitives
  `Image.paste` (no mask), `Image.alpha_composite` (in place, at the
  origin), and `Image.crop((0, 16, w, h))` as used by the scripts;
* `compositeFrame` and `create_animated_radar` model the per-frame
  layer compositing and the animated-GIF assembly loop;
* `joinFrame` and `join_animated_gifs` model the frame-by-frame join of
  two animated GIFs;
* `resize_fit` models the aspect-preserving resize block of
  `join_and_resize_images`.

RGB conversion and palette quantization (performed by the external
imaging library on each finished frame) only re-encode pixel storage and
are not modelled; no property below concerns the palette encoding.
Python's real-number divisions in the resize block are modelled exactly
over the naturals: the branch comparison of the two aspect quotients is
cross-multiplied, and `int(...)` truncation of a positive quotient is
floor division.
-/

namespace BomRadar

/-- One RGBA pixel; channels are 0..255 as in the 8-bit rasters the
scripts manipulate. -/
structure RGBA where
  r : Nat
  g : Nat
  b : Nat
  a : Nat
deriving DecidableEq, Repr

/-- Fully transparent black, the default fill of `Image.new('RGBA', size)`. -/
def rgbaClear : RGBA := ⟨0, 0, 0, 0⟩

/-- Opaque black, the colour `(0, 0, 0, 255)` used for placeholders and
separator canvases. -/
def opaqueBlack : RGBA := ⟨0, 0, 0, 255⟩

/-- An in-memory RGBA raster: `pix x y` is the pixel at column `x`,
row `y`.  Coordinates outside `width × height` are irrelevant junk kept
only to make the operations total. -/
@[ext]
structure Img where
  width : Nat
  height : Nat
  pix : Nat → Nat → RGBA

/-- `Image.new('RGBA', (w, h), c)`: a solid raster of one colour. -/
def Img.new (w h : Nat) (c : RGBA) : Img := ⟨w, h, fun _ _ => c⟩

/-- `dst.paste(src, (x0, y0))` with no mask: pixels of `src` (alpha
included) replace those of `dst` on the pasted region. -/
def paste (dst src : Img) (x0 y0 : Nat) : Img :=
  ⟨dst.width, dst.height, fun x y =>
    if x0 ≤ x ∧ x < x0 + src.width ∧ y0 ≤ y ∧ y < y0 + src.height then
      src.pix (x - x0) (y - y0)
    else dst.pix x y⟩

/-- The `over` operator of `Image.alpha_composite`, per pixel:
`outA = srcA + dstA*(255-srcA)/255`, each colour channel averaged with
the same weights (integer arithmetic). -/
def over (src dst : RGBA) : RGBA :=
  let da := dst.a * (255 - src.a) / 255
  let outA := src.a + da
  if outA = 0 then rgbaClear
  else
    ⟨(src.r * src.a + dst.r * da) / outA,
     (src.g * src.a + dst.g * da) / outA,
     (src.b * src.a + dst.b * da) / outA,
     outA⟩

/-- `dst.alpha_composite(src)` (in place, at the origin): `src` is
blended over `dst` on the region covered by `src`; `dst` keeps its
size. -/
def alphaComposite (dst src : Img) : Img :=
  ⟨dst.width, dst.height, fun x y =>
    if x < src.width ∧ y < src.height then over (src.pix x y) (dst.pix x y)
    else dst.pix x y⟩

/-- The fixed number of header rows stripped from every layer
(`crop_pixels = 16` in `create_animated_radar`). -/
def crop_pixels : Nat := 16

/-- `img.crop((0, n, img.width, img.height))`: drop the top `n` rows. -/
def crop_rows (n : Nat) (img : Img) : Img :=
  ⟨img.width, img.height - n, fun x y => img.pix x (y + n)⟩

/-- The spec's `crop_top(buffer, n)`: drop the top `n` rows, a no-op
when the buffer is not taller than `n` (the guard
`img.height > crop_pixels` of `crop_img`, generalised to any `n`). -/
def crop_top (n : Nat) (img : Img) : Img :=
  if n < img.height then crop_rows n img else img

/-- The `crop_img` helper of `create_animated_radar`: crop the fixed 16
header rows when the image is taller than that. -/
def crop_img (img : Img) : Img := crop_top crop_pixels img

/-- One `if layer: composite.alpha_composite(layer)` step: blend a layer
over the accumulator when present, skip it when absent. -/
def compositeOpt (acc : Img) (layer : Option Img) : Img :=
  match layer with
  | some l => alphaComposite acc l
  | none => acc

/-- The per-frame compositing block of `create_animated_radar`
(lines 108-122): a fresh canvas of the background's size, the background
pasted at the origin, then topography, the radar frame, locations and
the range overlay alpha-composited in that order, each skipped when
absent. -/
def compositeFrame (background : Img)
    (topography radar locations range_overlay : Option Img) : Img :=
  let composite := Img.new background.width background.height rgbaClear
  let composite := paste composite background 0 0
  let composite := compositeOpt composite topography
  let composite := compositeOpt composite radar
  let composite := compositeOpt composite locations
  compositeOpt composite range_overlay

/-- The Compositor contract, written from the spec's words: start from
the background pasted onto a fresh canvas of the background's size, then
fold over the ordered list of optional layers, alpha-compositing each
present layer and skipping absent ones. -/
def compositorSpec (background : Img) (layers : List (Option Img)) : Img :=
  layers.foldl
    (fun acc layer? =>
      match layer? with
      | some l => alphaComposite acc l
      | none => acc)
    (paste (Img.new background.width background.height rgbaClear) background 0 0)

/-- A finished looping animation: the composited frames, the per-frame
display duration in milliseconds, and the GIF loop count (0 encodes
loop-forever). -/
structure AnimatedArtifact where
  frames : List Img
  duration : Nat
  loop : Nat

/-- The background-fallback of `create_animated_radar` (lines 80-82): a
fetched background is used as is; a failed fetch is replaced by the
opaque black `Image.new('RGBA', (512, 512), (0, 0, 0, 255))`
placeholder. -/
def resolve_background (fetched : Option Img) : Img :=
  match fetched with
  | some bg => bg
  | none => Img.new 512 512 opaqueBlack

/-- The saving block of `create_animated_radar` (lines 128-141): when at
least one frame was produced, save them all with the fixed
`duration=500`, `loop=0`; with no frames, report failure. -/
def assemble_frames (frames : List Img) : Option AnimatedArtifact :=
  if frames.isEmpty then none
  else some ⟨frames, 500, 0⟩

/-- `create_animated_radar`, downstream of the network fetches: each
`Option Img` is the result of fetching one static layer, and the list
holds the per-frame radar fetch results in discovery order.  Static
layers are cropped once, each fetched radar frame is cropped and
composited over them, failed frames are skipped, and the surviving
frames are assembled into a looping artifact. -/
def create_animated_radar (bg? topo? locs? rng? : Option Img)
    (radarFetches : List (Option Img)) : Option AnimatedArtifact :=
  let background := crop_img (resolve_background bg?)
  let topography := topo?.map crop_img
  let locations := locs?.map crop_img
  let range_overlay := rng?.map crop_img
  let frames := radarFetches.filterMap (fun radar? =>
    radar?.map (fun radar =>
      compositeFrame background topography (some (crop_img radar))
        locations range_overlay))
  assemble_frames frames

/-- The two join arrangements of `join_animated_gifs`. -/
inductive Orientation where
  | horizontal
  | vertical
deriving DecidableEq, Repr

/-- The fixed separator thickness (`separator_size = 1`). -/
def separator_size : Nat := 1

/-- The per-index canvas of `join_animated_gifs` (lines 168-183): an
opaque black canvas exactly large enough for both frames plus the
separator band, the first frame pasted at the origin and the second
offset past the first frame and the separator. -/
def joinFrame (orientation : Orientation) (img1 img2 : Img) : Img :=
  match orientation with
  | .vertical =>
    let total_width := max img1.width img2.width
    let total_height := img1.height + img2.height + separator_size
    let new_img := Img.new total_width total_height opaqueBlack
    let new_img := paste new_img img1 0 0
    paste new_img img2 0 (img1.height + separator_size)
  | .horizontal =>
    let total_width := img1.width + img2.width + separator_size
    let total_height := max img1.height img2.height
    let new_img := Img.new total_width total_height opaqueBlack
    let new_img := paste new_img img1 0 0
    paste new_img img2 (img1.width + separator_size) 0

/-- An animated GIF as `join_animated_gifs` sees one: its decoded
frames, and the `duration` entry of its metadata when the file carries
one (`gif.info.get('duration', 500)` reads it with a 500 ms default). -/
structure Gif where
  frames : List Img
  info : Option Nat

/-- Frame returned by seeking outside a GIF; never reached, since the
join only seeks below the reconciled frame count. -/
def default_img : Img := Img.new 0 0 rgbaClear

/-- `join_animated_gifs`: the inputs are the results of opening the two
source files (`none` models a file that cannot be opened or decoded).
The join iterates over `min` of the two frame counts, seeks frame `i` of
each source, combines the pair on a fresh canvas, and saves the combined
frames with the first input's duration only when at least one was
produced. -/
def join_animated_gifs (gif1? gif2? : Option Gif) (orientation : Orientation) :
    Option Gif :=
  match gif1?, gif2? with
  | some gif1, some gif2 =>
    let n_frames := min gif1.frames.length gif2.frames.length
    let frames := (List.range n_frames).map (fun i =>
      joinFrame orientation ((gif1.frames[i]?).getD default_img)
        ((gif2.frames[i]?).getD default_img))
    if frames.isEmpty then none
    else some ⟨frames, some (gif1.info.getD 500)⟩
  | _, _ => none

/-- The aspect-preserving resize block of `join_and_resize_images`
(lines 59-70 of `bom_radar_scraper.py`), for a source canvas `W × H`
and target `Wt × Ht`: when the source aspect quotient exceeds the
target's (`W/H > Wt/Ht`, cross-multiplied here), width is the limiting
axis and the height scales as `int(Wt / (W/H)) = Wt*H/W`; otherwise
height limits and the width scales as `int(Ht * (W/H)) = Ht*W/H`. -/
def resize_fit (W H Wt Ht : Nat) : Nat × Nat :=
  if Wt * H < W * Ht then (Wt, Wt * H / W)
  else (Ht * W / H, Ht)

/-- The centering offsets of `join_and_resize_images` (lines 77-78):
`paste_x = (target_width - new_width) // 2` and likewise for `y`. -/
def paste_offsets (Wt Ht sw sh : Nat) : Nat × Nat :=
  ((Wt - sw) / 2, (Ht - sh) / 2)

/-- The scaled size and centering offsets that `join_and_resize_images`
computes for a joined canvas `W × H` and target `Wt × Ht`. -/
def join_and_resize_layout (W H Wt Ht : Nat) : (Nat × Nat) × (Nat × Nat) :=
  let scaled := resize_fit W H Wt Ht
  (scaled, paste_offsets Wt Ht scaled.1 scaled.2)

/-! ## Helper lemmas -/

@[simp]
theorem compositeOpt_width (acc : Img) (o : Option Img) :
    (compositeOpt acc o).width = acc.width := by
  cases o <;> rfl

@[simp]
theorem compositeOpt_height (acc : Img) (o : Option Img) :
    (compositeOpt acc o).height = acc.height := by
  cases o <;> rfl

theorem over_opaque (src dst : RGBA) (h : src.a = 255) : over src dst = src := by
  obtain ⟨r, g, b, a⟩ := src
  simp only [RGBA.a] at h
  subst h
  simp [over, Nat.mul_div_cancel]

/-! ## Claim theorems -/

/-- C2: the compositor flattens a layer stack in the fixed order
background, topography, radar, locations, range — equal to the spec's
ordered fold over present layers with absent ones skipped — the output
buffer has the background's (post-crop) size, and a later layer paints
over everything below it wherever it is opaque. -/
theorem c2_compositor_fixed_order (bg : Img) (t r l rg : Option Img) :
    compositeFrame bg t r l rg = compositorSpec bg [t, r, l, rg]
    ∧ (compositeFrame bg t r l rg).width = bg.width
    ∧ (compositeFrame bg t r l rg).height = bg.height
    ∧ (∀ R, rg = some R → ∀ x y, x < R.width → y < R.height →
        (R.pix x y).a = 255 → (compositeFrame bg t r l rg).pix x y = R.pix x y) := by
  refine ⟨rfl, by simp [compositeFrame, paste, Img.new],
    by simp [compositeFrame, paste, Img.new], ?_⟩
  intro R hrg x y hx hy ha
  subst hrg
  show (alphaComposite _ R).pix x y = R.pix x y
  simp only [alphaComposite]
  rw [if_pos ⟨hx, hy⟩, over_opaque _ _ ha]

/-- C2 witness: on a concrete stack with an opaque range overlay, the
overlay's pixel wins at an in-range coordinate, and the output keeps the
background's size. -/
theorem c2_compositor_fixed_order_witness :
    (compositeFrame (Img.new 50 40 opaqueBlack) none none none
        (some (Img.new 50 40 ⟨1, 2, 3, 255⟩))).pix 7 9
      = (Img.new 50 40 ⟨1, 2, 3, 255⟩).pix 7 9
    ∧ (compositeFrame (Img.new 50 40 opaqueBlack) none none none
        (some (Img.new 50 40 ⟨1, 2, 3, 255⟩))).width = 50 :=
  ⟨(c2_compositor_fixed_order (Img.new 50 40 opaqueBlack) none none none
      (some (Img.new 50 40 ⟨1, 2, 3, 255⟩))).2.2.2
      (Img.new 50 40 ⟨1, 2, 3, 255⟩) rfl 7 9 (by decide) (by decide) rfl,
   (c2_compositor_fixed_order (Img.new 50 40 opaqueBlack) none none none
      (some (Img.new 50 40 ⟨1, 2, 3, 255⟩))).2.1⟩

/-- A 100×100 radar frame used to exhibit that the placeholder
background ignores the stack's own frame dimensions. -/
def smallRadarFrame : Img := Img.new 100 100 ⟨0, 0, 255, 128⟩

/-- C3 counterexample: with a failed background fetch and a stack whose
radar frames are 100×100 (post-crop 100×84), the composited frame is
built on the fixed 512×512 placeholder and comes out 512×496 — not at
the stack's prevailing frame dimensions. -/
theorem c3_placeholder_ignores_stack_dims :
    (create_animated_radar none none none none [some smallRadarFrame]).map
        (fun a => a.frames.map (fun f => (f.width, f.height)))
      = some [(512, 496)]
    ∧ smallRadarFrame.width = 100
    ∧ (crop_img smallRadarFrame).height = 84
    ∧ ((512 : Nat), (496 : Nat)) ≠ ((100 : Nat), (84 : Nat)) :=
  ⟨rfl, rfl, rfl, by decide⟩

/-- C3 amended: when the background fetch fails the pipeline does not
abort — it substitutes the fully opaque black placeholder of fixed size
512×512 (regardless of the stack's frame dimensions) and composites on
it exactly as it would on a fetched 512×512 opaque black background. -/
theorem c3_fixed_512_placeholder (topo? locs? rng? : Option Img)
    (fetches : List (Option Img)) :
    create_animated_radar none topo? locs? rng? fetches
      = create_animated_radar (some (Img.new 512 512 opaqueBlack))
          topo? locs? rng? fetches
    ∧ (resolve_background none).width = 512
    ∧ (resolve_background none).height = 512
    ∧ (∀ x y, (resolve_background none).pix x y = opaqueBlack) :=
  ⟨rfl, rfl, rfl, fun _ _ => rfl⟩

/-- C6: the sequence assembler fails on an empty frame list instead of
raising, never produces a zero-frame artifact, and the pipeline with no
frame fetches at all likewise reports failure. -/
theorem c6_empty_frame_list_fails :
    assemble_frames [] = none
    ∧ (∀ fs a, assemble_frames fs = some a → a.frames ≠ [])
    ∧ (∀ bg? topo? locs? rng?,
        create_animated_radar bg? topo? locs? rng? [] = none) := by
  refine ⟨rfl, ?_, fun _ _ _ _ => rfl⟩
  intro fs a h
  cases fs with
  | nil => exact Option.noConfusion h
  | cons x xs =>
    injection h with h
    subst h
    exact List.cons_ne_nil x xs

/-- C6 witness: a singleton frame list assembles into an artifact with a
nonempty frame list. -/
theorem c6_empty_frame_list_fails_witness :
    AnimatedArtifact.frames ⟨[default_img], 500, 0⟩ ≠ [] :=
  c6_empty_frame_list_fails.2.1 [default_img] ⟨[default_img], 500, 0⟩ rfl

/-- C10: every artifact the assembly pipeline produces carries the fixed
500 ms per-frame duration and the loop-forever flag (GIF loop count 0),
whatever the fetched inputs were; the duration is a constant of the
code, not a parameter. -/
theorem c10_fixed_duration (bg? topo? locs? rng? : Option Img)
    (fetches : List (Option Img)) (a : AnimatedArtifact)
    (h : create_animated_radar bg? topo? locs? rng? fetches = some a) :
    a.duration = 500 ∧ a.loop = 0 := by
  simp only [create_animated_radar, assemble_frames] at h
  split at h
  · exact Option.noConfusion h
  · injection h with h
    subst h
    exact ⟨rfl, rfl⟩

/-- A concrete fetched background for witness runs. -/
def testBG512 : Img := Img.new 512 512 ⟨10, 20, 30, 255⟩

/-- A concrete fetched radar frame for witness runs. -/
def testRadar512 : Img := Img.new 512 512 ⟨200, 0, 0, 128⟩

/-- The frame the pipeline composites from the two test images. -/
def testFrame : Img :=
  compositeFrame (crop_img testBG512) none (some (crop_img testRadar512)) none none

/-- C10 witness: a concrete successful run produces duration 500 and
loop count 0. -/
theorem c10_fixed_duration_witness :
    create_animated_radar (some testBG512) none none none [some testRadar512]
        = some ⟨[testFrame], 500, 0⟩
    ∧ AnimatedArtifact.duration ⟨[testFrame], 500, 0⟩ = 500
    ∧ AnimatedArtifact.loop ⟨[testFrame], 500, 0⟩ = 0 :=
  ⟨rfl,
   (c10_fixed_duration (some testBG512) none none none [some testRadar512]
      ⟨[testFrame], 500, 0⟩ rfl).1,
   (c10_fixed_duration (some testBG512) none none none [some testRadar512]
      ⟨[testFrame], 500, 0⟩ rfl).2⟩

theorem join_some_eq (gif1 gif2 : Gif) (o : Orientation) (g : Gif)
    (h : join_animated_gifs (some gif1) (some gif2) o = some g) :
    g.frames.length = min gif1.frames.length gif2.frames.length
    ∧ g.info = some (gif1.info.getD 500) := by
  simp only [join_animated_gifs] at h
  split at h
  · exact Option.noConfusion h
  · injection h with h
    subst h
    exact ⟨by simp, rfl⟩

/-- C1: a successful join has exactly `min(F1, F2)` frames, and the join
reads nothing past index `min(F1, F2)` of either input: truncating both
inputs to that length leaves the result unchanged. -/
theorem c1_join_min_frame_count (gif1 gif2 : Gif) (o : Orientation) :
    (∀ g, join_animated_gifs (some gif1) (some gif2) o = some g →
        g.frames.length = min gif1.frames.length gif2.frames.length)
    ∧ join_animated_gifs (some gif1) (some gif2) o
        = join_animated_gifs
            (some ⟨gif1.frames.take (min gif1.frames.length gif2.frames.length),
                   gif1.info⟩)
            (some ⟨gif2.frames.take (min gif1.frames.length gif2.frames.length),
                   gif2.info⟩) o := by
  refine ⟨fun g h => (join_some_eq gif1 gif2 o g h).1, ?_⟩
  have hn : min (gif1.frames.take
        (min gif1.frames.length gif2.frames.length)).length
      (gif2.frames.take (min gif1.frames.length gif2.frames.length)).length
      = min gif1.frames.length gif2.frames.length := by
    simp only [List.length_take]
    omega
  simp only [join_animated_gifs, hn]
  have hmap : ∀ i ∈ List.range (min gif1.frames.length gif2.frames.length),
      joinFrame o
        (((gif1.frames.take (min gif1.frames.length gif2.frames.length))[i]?).getD
          default_img)
        (((gif2.frames.take (min gif1.frames.length gif2.frames.length))[i]?).getD
          default_img)
      = joinFrame o ((gif1.frames[i]?).getD default_img)
          ((gif2.frames[i]?).getD default_img) := by
    intro i hi
    rw [List.mem_range] at hi
    rw [List.getElem?_take, List.getElem?_take, if_pos hi, if_pos hi]
  rw [List.map_congr_left hmap]

/-- A two-frame animated input used by the join witnesses. -/
def gifA : Gif := ⟨[testBG512, testRadar512], some 500⟩

/-- A three-frame animated input used by the join witnesses. -/
def gifB : Gif := ⟨[testRadar512, testBG512, testBG512], some 250⟩

/-- First combined frame of joining `gifA` and `gifB` side by side. -/
def joined01 : Img := joinFrame .horizontal testBG512 testRadar512

/-- Second combined frame of joining `gifA` and `gifB` side by side. -/
def joined02 : Img := joinFrame .horizontal testRadar512 testBG512

/-- C1 witness: joining a 2-frame and a 3-frame artifact yields 2 = min 2 3
frames. -/
theorem c1_join_min_frame_count_witness :
    (Gif.mk [joined01, joined02] (some 500)).frames.length
      = min gifA.frames.length gifB.frames.length :=
  (c1_join_min_frame_count gifA gifB .horizontal).1
    ⟨[joined01, joined02], some 500⟩ rfl

/-- C8: a join whose first or second source failed to open returns
failure, a join reconciling zero frames returns failure, and a
successful join holds every one of the `min(F1, F2)` reconciled frames
(the artifact is only produced whole). -/
theorem c8_join_failure_no_partial_output (g1 g2 : Gif) (g? : Option Gif)
    (o : Orientation) :
    join_animated_gifs none g? o = none
    ∧ join_animated_gifs g? none o = none
    ∧ (min g1.frames.length g2.frames.length = 0 →
        join_animated_gifs (some g1) (some g2) o = none)
    ∧ (∀ g, join_animated_gifs (some g1) (some g2) o = some g →
        g.frames.length = min g1.frames.length g2.frames.length) := by
  refine ⟨by cases g? <;> rfl, by cases g? <;> rfl, ?_,
    fun g h => (join_some_eq g1 g2 o g h).1⟩
  intro h0
  simp only [join_animated_gifs, h0]
  rfl

/-- A zero-frame animated input. -/
def emptyGif : Gif := ⟨[], some 500⟩

/-- C8 witness: an unopenable first source and a zero-frame
reconciliation both make the join fail. -/
theorem c8_join_failure_no_partial_output_witness :
    join_animated_gifs none (some gifB) .horizontal = none
    ∧ join_animated_gifs (some emptyGif) (some gifB) .horizontal = none :=
  ⟨(c8_join_failure_no_partial_output emptyGif gifB (some gifB) .horizontal).1,
   (c8_join_failure_no_partial_output emptyGif gifB (some gifB) .horizontal).2.2.1
     (by decide)⟩

/-- C9: a successful join inherits the first input's per-frame duration,
not the second's and not an average. -/
theorem c9_join_duration_from_first (gif1 gif2 : Gif) (o : Orientation)
    (d : Nat) (g : Gif) (hd : gif1.info = some d)
    (h : join_animated_gifs (some gif1) (some gif2) o = some g) :
    g.info = some d := by
  rw [(join_some_eq gif1 gif2 o g h).2, hd]
  rfl

/-- C9 witness: joining the 500 ms `gifA` with the 250 ms `gifB` keeps
500 ms. -/
theorem c9_join_duration_from_first_witness :
    (Gif.mk [joined01, joined02] (some 500)).info = some 500 :=
  c9_join_duration_from_first gifA gifB .horizontal 500
    ⟨[joined01, joined02], some 500⟩ rfl rfl

/-- C7: the per-index joined canvas is exactly the two native frame
sizes plus the fixed separator band in the chosen orientation; the first
frame sits at the origin, the second past the first frame plus
separator, and the separator band itself is opaque black. -/
theorem c7_join_canvas_geometry (img1 img2 : Img) (x y : Nat) :
    (joinFrame .horizontal img1 img2).width
        = img1.width + img2.width + separator_size
    ∧ (joinFrame .horizontal img1 img2).height = max img1.height img2.height
    ∧ (x < img1.width → y < img1.height →
        (joinFrame .horizontal img1 img2).pix x y = img1.pix x y)
    ∧ (x < img2.width → y < img2.height →
        (joinFrame .horizontal img1 img2).pix (img1.width + separator_size + x) y
          = img2.pix x y)
    ∧ (joinFrame .horizontal img1 img2).pix img1.width y = opaqueBlack
    ∧ (joinFrame .vertical img1 img2).width = max img1.width img2.width
    ∧ (joinFrame .vertical img1 img2).height
        = img1.height + img2.height + separator_size
    ∧ (x < img1.width → y < img1.height →
        (joinFrame .vertical img1 img2).pix x y = img1.pix x y)
    ∧ (x < img2.width → y < img2.height →
        (joinFrame .vertical img1 img2).pix x (img1.height + separator_size + y)
          = img2.pix x y)
    ∧ (joinFrame .vertical img1 img2).pix x img1.height = opaqueBlack := by
  refine ⟨rfl, rfl, ?_, ?_, ?_, rfl, rfl, ?_, ?_, ?_⟩
  · intro hx hy
    simp only [joinFrame, paste, Img.new, separator_size]
    rw [if_neg (by omega), if_pos (by omega)]
    simp
  · intro hx hy
    simp only [joinFrame, paste, Img.new, separator_size]
    rw [if_pos (by omega)]
    have h1 : img1.width + 1 + x - (img1.width + 1) = x := by omega
    rw [h1, Nat.sub_zero]
  · simp only [joinFrame, paste, Img.new, separator_size]
    rw [if_neg (by omega), if_neg (by omega)]
  · intro hx hy
    simp only [joinFrame, paste, Img.new, separator_size]
    rw [if_neg (by omega), if_pos (by omega)]
    simp
  · intro hx hy
    simp only [joinFrame, paste, Img.new, separator_size]
    rw [if_pos (by omega)]
    have h1 : img1.height + 1 + y - (img1.height + 1) = y := by omega
    rw [h1, Nat.sub_zero]
  · simp only [joinFrame, paste, Img.new, separator_size]
    rw [if_neg (by omega), if_neg (by omega)]

/-- An opaque red 100×100 frame (spec scenario A). -/
def red100 : Img := Img.new 100 100 ⟨255, 0, 0, 255⟩

/-- C7 witness: two 100×100 frames joined side by side give a 201-wide
canvas, both halves carry the source pixels, and column 100 is the black
separator. -/
theorem c7_join_canvas_geometry_witness :
    (joinFrame .horizontal red100 red100).width = 201
    ∧ (joinFrame .horizontal red100 red100).pix 40 50 = red100.pix 40 50
    ∧ (joinFrame .horizontal red100 red100).pix (101 + 40) 50 = red100.pix 40 50
    ∧ (joinFrame .horizontal red100 red100).pix 100 50 = opaqueBlack :=
  ⟨(c7_join_canvas_geometry red100 red100 40 50).1.trans (by decide),
   (c7_join_canvas_geometry red100 red100 40 50).2.2.1 (by decide) (by decide),
   (c7_join_canvas_geometry red100 red100 40 50).2.2.2.1 (by decide) (by decide),
   (c7_join_canvas_geometry red100 red100 40 50).2.2.2.2.1⟩

/-- C4: the aspect-preserving resize keeps the scaled size within the
target box, makes the limiting axis exactly its target, keeps the
width/height proportion of the source up to the integer rounding of the
non-limiting axis, and centers the result with the `(target - scaled) / 2`
offsets. -/
theorem c4_aspect_preserving_resize (W H Wt Ht : Nat)
    (hW : 0 < W) (hH : 0 < H) (hWt : 0 < Wt) (hHt : 0 < Ht) :
    (resize_fit W H Wt Ht).1 ≤ Wt
    ∧ (resize_fit W H Wt Ht).2 ≤ Ht
    ∧ ((resize_fit W H Wt Ht).1 = Wt ∨ (resize_fit W H Wt Ht).2 = Ht)
    ∧ ((W * (resize_fit W H Wt Ht).2 ≤ (resize_fit W H Wt Ht).1 * H
        ∧ (resize_fit W H Wt Ht).1 * H < W * (resize_fit W H Wt Ht).2 + W)
      ∨ (H * (resize_fit W H Wt Ht).1 ≤ (resize_fit W H Wt Ht).2 * W
        ∧ (resize_fit W H Wt Ht).2 * W < H * (resize_fit W H Wt Ht).1 + H))
    ∧ join_and_resize_layout W H Wt Ht
        = (resize_fit W H Wt Ht,
           ((Wt - (resize_fit W H Wt Ht).1) / 2,
            (Ht - (resize_fit W H Wt Ht).2) / 2)) := by
  have hpos : ∀ hc : Wt * H < W * Ht, resize_fit W H Wt Ht = (Wt, Wt * H / W) := by
    intro hc
    unfold resize_fit
    rw [if_pos hc]
  have hneg : ∀ hc : ¬ Wt * H < W * Ht,
      resize_fit W H Wt Ht = (Ht * W / H, Ht) := by
    intro hc
    unfold resize_fit
    rw [if_neg hc]
  refine ⟨?_, ?_, ?_, ?_, rfl⟩
  · by_cases hc : Wt * H < W * Ht
    · rw [hpos hc]
    · rw [hneg hc]
      show Ht * W / H ≤ Wt
      calc Ht * W / H ≤ Wt * H / H := by
            refine Nat.div_le_div_right ?_
            rw [Nat.mul_comm Ht W]
            exact Nat.le_of_not_lt hc
        _ = Wt := Nat.mul_div_cancel Wt hH
  · by_cases hc : Wt * H < W * Ht
    · rw [hpos hc]
      show Wt * H / W ≤ Ht
      refine le_of_lt ((Nat.div_lt_iff_lt_mul hW).2 ?_)
      rw [Nat.mul_comm Ht W]
      exact hc
    · rw [hneg hc]
  · by_cases hc : Wt * H < W * Ht
    · rw [hpos hc]
      exact Or.inl rfl
    · rw [hneg hc]
      exact Or.inr rfl
  · by_cases hc : Wt * H < W * Ht
    · rw [hpos hc]
      refine Or.inl ⟨?_, ?_⟩
      · show W * (Wt * H / W) ≤ Wt * H
        have h1 := Nat.div_add_mod (Wt * H) W
        exact Nat.le.intro h1
      · show Wt * H < W * (Wt * H / W) + W
        have h1 := Nat.div_add_mod (Wt * H) W
        have h2 := Nat.mod_lt (Wt * H) hW
        omega
    · rw [hneg hc]
      refine Or.inr ⟨?_, ?_⟩
      · show H * (Ht * W / H) ≤ Ht * W
        have h1 := Nat.div_add_mod (Ht * W) H
        exact Nat.le.intro h1
      · show Ht * W < H * (Ht * W / H) + H
        have h1 := Nat.div_add_mod (Ht * W) H
        have h2 := Nat.mod_lt (Ht * W) hH
        omega

/-- C4 witness: a 200×100 canvas resized into an 800×480 target scales
to 800×400, within the box. -/
theorem c4_aspect_preserving_resize_witness :
    resize_fit 200 100 800 480 = (800, 400)
    ∧ (resize_fit 200 100 800 480).2 ≤ 480 :=
  ⟨by decide,
   (c4_aspect_preserving_resize 200 100 800 480 (by decide) (by decide)
      (by decide) (by decide)).2.1⟩

theorem compositeFrame_height (bg : Img) (t r l rg : Option Img) :
    (compositeFrame bg t r l rg).height = bg.height := by
  simp [compositeFrame, paste, Img.new]

theorem crop_rows_alphaComposite (n : Nat) (dst src : Img) :
    crop_rows n (alphaComposite dst src)
      = alphaComposite (crop_rows n dst) (crop_rows n src) := by
  refine Img.ext rfl rfl ?_
  funext x y
  simp only [crop_rows, alphaComposite]
  by_cases hc : x < src.width ∧ y + n < src.height
  · rw [if_pos hc, if_pos ⟨hc.1, by omega⟩]
  · rw [if_neg hc, if_neg (by omega)]

theorem crop_rows_paste_origin (n : Nat) (dst src : Img) :
    crop_rows n (paste dst src 0 0)
      = paste (crop_rows n dst) (crop_rows n src) 0 0 := by
  refine Img.ext rfl rfl ?_
  funext x y
  simp only [crop_rows, paste]
  by_cases hc : 0 ≤ x ∧ x < 0 + src.width ∧ 0 ≤ y + n ∧ y + n < 0 + src.height
  · rw [if_pos hc, if_pos ⟨hc.1, hc.2.1, by omega, by omega⟩]
    simp [Nat.sub_zero]
  · rw [if_neg hc, if_neg (by omega)]

theorem crop_rows_compositeOpt (n : Nat) (acc : Img) (o : Option Img) :
    crop_rows n (compositeOpt acc o)
      = compositeOpt (crop_rows n acc) (o.map (crop_rows n)) := by
  cases o
  · rfl
  · exact crop_rows_alphaComposite n acc _

theorem crop_rows_compositeFrame (n : Nat) (bg : Img) (t r l rg : Option Img) :
    crop_rows n (compositeFrame bg t r l rg)
      = compositeFrame (crop_rows n bg) (t.map (crop_rows n)) (r.map (crop_rows n))
          (l.map (crop_rows n)) (rg.map (crop_rows n)) := by
  simp only [compositeFrame]
  rw [crop_rows_compositeOpt, crop_rows_compositeOpt, crop_rows_compositeOpt,
    crop_rows_compositeOpt, crop_rows_paste_origin]
  rfl

/-- C5: on a stack whose layers all share one `w × h` canvas taller than
the crop, cropping the top `n` rows of every layer and then compositing
equals compositing the uncropped layers and cropping the top `n` rows of
the result. -/
theorem c5_crop_composite_commute (n w h : Nat) (bg : Img) (t r l rg : Option Img)
    (hbgw : bg.width = w) (hbgh : bg.height = h)
    (ht : ∀ i ∈ t, i.width = w ∧ i.height = h)
    (hr : ∀ i ∈ r, i.width = w ∧ i.height = h)
    (hl : ∀ i ∈ l, i.width = w ∧ i.height = h)
    (hrg : ∀ i ∈ rg, i.width = w ∧ i.height = h)
    (hn : n < h) :
    compositeFrame (crop_top n bg) (t.map (crop_top n)) (r.map (crop_top n))
        (l.map (crop_top n)) (rg.map (crop_top n))
      = crop_top n (compositeFrame bg t r l rg) := by
  have hcrop : ∀ i : Img, i.height = h → crop_top n i = crop_rows n i := by
    intro i hih
    unfold crop_top
    rw [if_pos (by omega)]
  have hmap : ∀ o : Option Img, (∀ i ∈ o, i.width = w ∧ i.height = h) →
      o.map (crop_top n) = o.map (crop_rows n) := by
    intro o ho
    cases o with
    | none => rfl
    | some i =>
      simp only [Option.map_some']
      rw [hcrop i (ho i rfl).2]
  rw [hmap t ht, hmap r hr, hmap l hl, hmap rg hrg, hcrop bg hbgh,
    hcrop _ (by rw [compositeFrame_height, hbgh]), crop_rows_compositeFrame]

/-- A 50×100 opaque blue background for the crop-commutation witness. -/
def wit_bg : Img := Img.new 50 100 ⟨0, 0, 255, 255⟩

/-- A 50×100 translucent topography layer for the crop-commutation
witness. -/
def wit_topo : Img := Img.new 50 100 ⟨20, 30, 40, 120⟩

/-- C5 witness: cropping 16 rows commutes with compositing on a concrete
50×100 two-layer stack. -/
theorem c5_crop_composite_commute_witness :
    compositeFrame (crop_top 16 wit_bg) (Option.map (crop_top 16) (some wit_topo))
        (Option.map (crop_top 16) none) (Option.map (crop_top 16) none)
        (Option.map (crop_top 16) none)
      = crop_top 16 (compositeFrame wit_bg (some wit_topo) none none none) :=
  c5_crop_composite_commute 16 50 100 wit_bg (some wit_topo) none none none
    rfl rfl
    (fun i hi => by rw [Option.mem_def] at hi; cases hi; exact ⟨rfl, rfl⟩)
    (fun i hi => by rw [Option.mem_def] at hi; exact Option.noConfusion hi)
    (fun i hi => by rw [Option.mem_def] at hi; exact Option.noConfusion hi)
    (fun i hi => by rw [Option.mem_def] at hi; exact Option.noConfusion hi)
    (by decide)

end BomRadar
